import Mathlib

/-!
Verification of the soca job-queue system (Supabase Edge Functions).

Shallow embedding of the three edge functions — process
(supabase/functions/process/index.ts), enqueue, and status — together with
the jobs table schema from the repository README. Timestamps are modelled
as natural numbers counting milliseconds since the epoch, matching the
millisecond arithmetic of the source (Date.now, locked_at comparisons,
backoff delays). JSON payloads are modelled as opaque strings.
-/

namespace Soca

/-- Job status enum, from the job_status SQL type in the repository schema:
pending, processing, completed, failed, dead_letter. -/
inductive JobStatus where
  | pending
  | processing
  | completed
  | failed
  | dead_letter
deriving DecidableEq

/-- A row of the jobs table, from the SQL schema in the repository README.
The updated_at column (trigger-maintained audit field) is omitted; it plays
no role in any query or branch of the edge functions. -/
structure Job where
  id : String
  idempotency_key : String
  query : String
  status : JobStatus
  result : Option String := none
  error_message : Option String := none
  retry_count : Nat := 0
  max_retries : Nat := 3
  next_retry_at : Option Nat := none
  timeout_seconds : Nat := 600
  locked_at : Option Nat := none
  locked_by : Option String := none
  created_at : Nat := 0
  completed_at : Option Nat := none
deriving DecidableEq

/-- Base backoff delay in milliseconds, from calculateNextRetryTime in the
process function: baseDelayMs = 10 * 1000. -/
def baseDelayMs : Nat := 10 * 1000

/-- calculateNextRetryTime from the process function:
Date.now() + baseDelayMs * 2 ^ retryCount. The current time is passed
explicitly instead of read from the clock. -/
def calculateNextRetryTime (now retryCount : Nat) : Nat :=
  now + baseDelayMs * 2 ^ retryCount

/-- Global stale-lock cutoff used by STEP 1 of the process function:
the stuck-job query compares locked_at against Date.now() - 600 * 1000,
a fixed constant in the code. -/
def reaperTimeoutMs : Nat := 600 * 1000

/-- STEP 1 stuck-job query predicate of the process function: selects rows
with status = processing and locked_at earlier than now minus the fixed
600-second constant. Note the query does not read the timeout_seconds
column of the row. `t + reaperTimeoutMs < now` is the natural-number form
of `t < now - reaperTimeoutMs`. -/
def isStuck (now : Nat) (j : Job) : Bool :=
  decide (j.status = JobStatus.processing) &&
    (match j.locked_at with
     | some t => decide (t + reaperTimeoutMs < now)
     | none => false)

/-- Per-job staleness predicate as the spec words it (section 4.5): status
processing and locked_at older than now minus the timeout_seconds of this
very row. Stated here only to compare with the isStuck predicate the code
actually runs. -/
def isStuckPerSpec (now : Nat) (j : Job) : Bool :=
  decide (j.status = JobStatus.processing) &&
    (match j.locked_at with
     | some t => decide (t + j.timeout_seconds * 1000 < now)
     | none => false)

/-- STEP 1 reaper action of the process function, applied to each stuck job:
when retry_count has reached max_retries the row is dead-lettered with the
message "Job timed out after maximum retries", lock fields cleared and
completed_at set; otherwise the row returns to pending with retry_count
incremented, the message "Job timed out, will retry", and next_retry_at
computed by calculateNextRetryTime applied to the pre-increment
retry_count (the code passes stuckJob.retry_count). -/
def reapJob (now : Nat) (j : Job) : Job :=
  if j.max_retries ≤ j.retry_count then
    { j with status := JobStatus.dead_letter,
             error_message := some "Job timed out after maximum retries",
             locked_at := none,
             locked_by := none,
             completed_at := some now }
  else
    { j with status := JobStatus.pending,
             error_message := some "Job timed out, will retry",
             retry_count := j.retry_count + 1,
             next_retry_at := some (calculateNextRetryTime now j.retry_count),
             locked_at := none,
             locked_by := none }

/-- STEP 2 selection filter of the process function: status in
{pending, failed}, next_retry_at null or not after now, and locked_at
null. -/
def isEligible (now : Nat) (j : Job) : Bool :=
  decide (j.status = JobStatus.pending ∨ j.status = JobStatus.failed) &&
    (match j.next_retry_at with
     | none => true
     | some t => decide (t ≤ now)) &&
  j.locked_at.isNone

/-- STEP 2 lock update of the process function: a conditional update that
sets status = processing, locked_at = now, locked_by = the worker id,
guarded by re-checking status in {pending, failed} at update time. Returns
the resulting row and the number of rows the update matched (1 when the
guard holds, 0 when another worker already moved the row out of
pending/failed). -/
def lockUpdate (now : Nat) (worker : String) (j : Job) : Job × Nat :=
  if j.status = JobStatus.pending ∨ j.status = JobStatus.failed then
    ({ j with status := JobStatus.processing,
              locked_at := some now,
              locked_by := some worker }, 1)
  else
    (j, 0)

/-- Client-library result of a conditional update whose filter matched zero
rows: PostgREST answers 204 No Content and supabase-js reports error =
null. Only a transport or SQL failure produces a non-null error object. -/
def updateErrorForZeroRows : Option String := none

/-- STEP 2 handler reaction after the lock update: the process function
returns the message "Failed to lock job, another worker may have claimed
it" exactly when lockError is non-null; it never inspects the number of
rows the update affected. -/
def lockConflictReported (lockError : Option String) : Bool :=
  lockError.isSome

/-- STEP 4 success update of the process function: status = completed,
result stored, lock fields cleared, completed_at set. The update does not
touch error_message or next_retry_at. -/
def completeJob (now : Nat) (res : String) (j : Job) : Job :=
  { j with status := JobStatus.completed,
           result := some res,
           locked_at := none,
           locked_by := none,
           completed_at := some now }

/-- STEP 5 failure branch of the process function: newRetryCount =
retry_count + 1; at or beyond max_retries the row is dead-lettered with
completed_at set (next_retry_at is left untouched), otherwise status =
failed with next_retry_at = calculateNextRetryTime applied to the
incremented count. Lock fields are cleared in both branches. -/
def failJob (now : Nat) (msg : String) (j : Job) : Job :=
  if j.max_retries ≤ j.retry_count + 1 then
    { j with status := JobStatus.dead_letter,
             error_message := some msg,
             retry_count := j.retry_count + 1,
             locked_at := none,
             locked_by := none,
             completed_at := some now }
  else
    { j with status := JobStatus.failed,
             error_message := some msg,
             retry_count := j.retry_count + 1,
             next_retry_at := some (calculateNextRetryTime now (j.retry_count + 1)),
             locked_at := none,
             locked_by := none }

/-- Fresh row inserted by the enqueue function: status = pending,
retry_count = 0, max_retries = 3, timeout_seconds = 600. -/
def initialJob (id key q : String) (now : Nat) : Job :=
  { id := id,
    idempotency_key := key,
    query := q,
    status := JobStatus.pending,
    retry_count := 0,
    max_retries := 3,
    timeout_seconds := 600,
    created_at := now }

/-- One operation of the core on a single job row, each constructor taken
from one update statement of the process function: the STEP 2 claim (on a
row passing the selection filter; the conditional guard of lockUpdate then
holds as well), the STEP 4 success update and the STEP 5 failure branch
(each resolving the row the worker holds in processing), and the STEP 1
reaper action on a row the stuck-job query selects. -/
inductive Step : Job → Job → Prop where
  | claim (now : Nat) (w : String) (j : Job) :
      isEligible now j = true → Step j (lockUpdate now w j).1
  | complete (now : Nat) (res : String) (j : Job) :
      j.status = JobStatus.processing → Step j (completeJob now res j)
  | fail (now : Nat) (msg : String) (j : Job) :
      j.status = JobStatus.processing → Step j (failJob now msg j)
  | reap (now : Nat) (j : Job) :
      isStuck now j = true → Step j (reapJob now j)

/-- Reflexive-transitive closure of Step: the states a job row can reach
from a given starting row under the operations of the core. -/
inductive Reachable (j0 : Job) : Job → Prop where
  | refl : Reachable j0 j0
  | step {j j' : Job} : Reachable j0 j → Step j j' → Reachable j0 j'

/-- Idempotency key construction of the enqueue function: user_id and
query joined by a colon, or the anonymous marker when no user_id was
sent. -/
def mkIdempotencyKey (user_id : Option String) (q : String) : String :=
  match user_id with
  | some uid => uid ++ ":" ++ q
  | none => "anonymous:" ++ q

/-- Dedup lookup of the enqueue function (step 4): the first row whose
idempotency_key equals the key and whose status is pending or
processing. -/
def findActiveByKey (table : List Job) (key : String) : Option Job :=
  table.find? (fun j =>
    j.idempotency_key == key &&
      decide (j.status = JobStatus.pending ∨ j.status = JobStatus.processing))

/-- Outcome of the enqueue function: the existing active row (HTTP 200,
"Job already exists", with its id and current status), a freshly created
row (HTTP 201, status pending), or a failed insert (HTTP 500, "Failed to
create job"). -/
inductive EnqueueResult where
  | existing (id : String) (status : JobStatus)
  | created (id : String)
  | insertFailed
deriving DecidableEq

/-- The enqueue function after request validation: compute the idempotency
key, look for an active row with that key and return it unchanged when
found; otherwise insert a fresh pending row. The jobs table declares
idempotency_key TEXT UNIQUE (repository README schema), so an insert
colliding with ANY existing row of that key — active or terminal — is
rejected by the store and surfaces as insertError, which the handler turns
into the 500 response. -/
def enqueue (table : List Job) (q : String) (user_id : Option String)
    (newId : String) (now : Nat) : EnqueueResult × List Job :=
  let key := mkIdempotencyKey user_id q
  match findActiveByKey table key with
  | some j => (EnqueueResult.existing j.id j.status, table)
  | none =>
    if table.any (fun j => j.idempotency_key == key) then
      (EnqueueResult.insertFailed, table)
    else
      (EnqueueResult.created newId, table ++ [initialJob newId key q now])

/-- Client-facing view built by the status function: job_id, status and
query are always present; result and completed_at are added only when the
row is completed with a non-null result; error_message, retry_count and
max_retries are added only when the row is failed or dead_letter;
retry_count and max_retries are added for a pending row with
retry_count > 0. The optional components are grouped the way the three
if-blocks of the handler assign them. -/
structure StatusView where
  job_id : String
  status : JobStatus
  query : String
  resultPart : Option (String × Option Nat) := none
  errorPart : Option (Option String × Nat × Nat) := none
  retryPart : Option (Nat × Nat) := none
deriving DecidableEq

/-- Projection of a job row into the client-facing view, from the three
conditional blocks of the status function. -/
def statusProjection (j : Job) : StatusView :=
  { job_id := j.id,
    status := j.status,
    query := j.query,
    resultPart :=
      match j.result with
      | some r => if j.status = JobStatus.completed then some (r, j.completed_at) else none
      | none => none,
    errorPart :=
      if j.status = JobStatus.failed ∨ j.status = JobStatus.dead_letter then
        some (j.error_message, j.retry_count, j.max_retries)
      else none,
    retryPart :=
      if j.status = JobStatus.pending ∧ 0 < j.retry_count then
        some (j.retry_count, j.max_retries)
      else none }

/-- Response of the status function: 400 with "job_id is required" when no
job id was sent, 404 with "Job not found" when the lookup misses, or the
projected view. -/
inductive StatusResult where
  | badRequest (msg : String)
  | notFound
  | ok (v : StatusView)
deriving DecidableEq

/-- Request shapes the status function distinguishes: a GET carrying an
optional job_id query parameter, or a POST whose body may carry job_id.
URLSearchParams.get returns null for an absent parameter; an empty string
value is falsy in the handler check and is treated the same way. -/
inductive StatusRequest where
  | get (job_id : Option String)
  | post (job_id : Option String)

/-- job_id extraction of the status function: the query parameter for GET,
the body field for POST; a missing value or an empty string fails the
truthiness check. -/
def extractJobId (r : StatusRequest) : Option String :=
  match r with
  | StatusRequest.get v | StatusRequest.post v =>
    match v with
    | some s => if s = "" then none else some s
    | none => none

/-- Row lookup of the status function: select by id, single row. -/
def findById (table : List Job) (jid : String) : Option Job :=
  table.find? (fun j => j.id == jid)

/-- The status function: validate the job id (400 before any lookup), look
the row up (404 when absent), and return the projection. A pure function
of the table — the handler only issues a select, so no job state is
modified. -/
def statusHandler (r : StatusRequest) (table : List Job) : StatusResult :=
  match extractJobId r with
  | none => StatusResult.badRequest "job_id is required"
  | some jid =>
    match findById table jid with
    | none => StatusResult.notFound
    | some j => StatusResult.ok (statusProjection j)

/-- Invariant of a single job row maintained by every operation of the
core: retry_count bounds by status, error_message presence on the failure
statuses, and the tie between the two lock fields and the processing
status. -/
def CoreInv (j : Job) : Prop :=
  ((j.status = JobStatus.pending ∨ j.status = JobStatus.processing) →
      j.retry_count ≤ j.max_retries) ∧
  (j.status = JobStatus.failed → j.retry_count < j.max_retries) ∧
  j.retry_count ≤ j.max_retries + 1 ∧
  ((j.status = JobStatus.failed ∨ j.status = JobStatus.dead_letter) →
      j.error_message.isSome = true) ∧
  (j.locked_at.isSome = true ↔ j.status = JobStatus.processing) ∧
  (j.locked_by.isSome = true ↔ j.status = JobStatus.processing)

/-- Concrete execution trace: a fresh job claimed at time 0. -/
def b0 : Job := (lockUpdate 0 "w" (initialJob "jb" "kb" "qb" 0)).1

/-- First failure of the trace job, at time 0. -/
def b1 : Job := failJob 0 "boom" b0

/-- The trace job reclaimed at time 20000, when its first backoff ends. -/
def b2 : Job := (lockUpdate 20000 "w" b1).1

/-- Second failure of the trace job, at time 20000. -/
def b3 : Job := failJob 20000 "boom" b2

/-- The trace job reclaimed at time 60000, when its second backoff ends. -/
def b4 : Job := (lockUpdate 60000 "w" b3).1

/-- Third failure of the trace job, at time 60000: dead-lettered. -/
def b5 : Job := failJob 60000 "boom" b4

/-- Alternative continuation after b4: the worker dies and the reaper
recovers the row at time 700000, putting it back to pending with
retry_count = 3 = max_retries. -/
def reapedJob : Job := reapJob 700000 b4

/-- The recovered row claimed again at time 740000, once its backoff
ends: processing with retry_count already at max_retries. -/
def reclaimedJob : Job := (lockUpdate 740000 "w" reapedJob).1

/-- Failure of the reclaimed row: retry_count rises to 4 while
max_retries is 3. -/
def overflowJob : Job := failJob 740000 "boom" reclaimedJob

/-- Single eligible pending job used in the claim-race evaluation. -/
def raceJob : Job := initialJob "jr" "anonymous:qr" "qr" 0

/-- Processing job with a 60-second timeout_seconds, locked at time 0. -/
def shortTimeoutJob : Job :=
  { id := "jt1", idempotency_key := "kt1", query := "qt", status := JobStatus.processing,
    retry_count := 0, max_retries := 3, timeout_seconds := 60,
    locked_at := some 0, locked_by := some "w", created_at := 0 }

/-- Processing job with a 3600-second timeout_seconds, locked at time 0. -/
def longTimeoutJob : Job :=
  { id := "jt2", idempotency_key := "kt2", query := "qt", status := JobStatus.processing,
    retry_count := 0, max_retries := 3, timeout_seconds := 3600,
    locked_at := some 0, locked_by := some "w", created_at := 0 }

/-- Stale processing job whose retry_count has reached max_retries. -/
def exhaustedStuckJob : Job :=
  { id := "jx", idempotency_key := "kx", query := "qx", status := JobStatus.processing,
    retry_count := 3, max_retries := 3, timeout_seconds := 600,
    locked_at := some 0, locked_by := some "w", created_at := 0 }

/-- Stale processing job with retry budget left. -/
def retryableStuckJob : Job :=
  { id := "jy", idempotency_key := "ky", query := "qy", status := JobStatus.processing,
    retry_count := 1, max_retries := 3, timeout_seconds := 600,
    locked_at := some 0, locked_by := some "w", created_at := 0 }

/-- Table holding one terminal (completed) job under the key built from an
anonymous submission of the query qq. -/
def terminalKeyedTable : List Job :=
  [{ initialJob "j-old" "anonymous:qq" "qq" 0 with
       status := JobStatus.completed, result := some "r", completed_at := some 5 }]

/-- Table holding one active (pending) job under the key built from an
anonymous submission of the query qa. -/
def activeKeyedTable : List Job := [initialJob "j-act" "anonymous:qa" "qa" 0]

/-- Failed job used to exercise the status projection. -/
def failedViewJob : Job :=
  { initialJob "j-f" "kf" "qf" 0 with
      status := JobStatus.failed, error_message := some "boom",
      retry_count := 1, next_retry_at := some 20000 }

/-- Completed job used to exercise the status projection. -/
def completedViewJob : Job :=
  { initialJob "j-c" "kc" "qc" 0 with
      status := JobStatus.completed, result := some "res", completed_at := some 9 }

/-- A row passing the STEP 2 selection filter has status pending or
failed. -/
theorem eligible_status {now : Nat} {j : Job} (h : isEligible now j = true) :
    j.status = JobStatus.pending ∨ j.status = JobStatus.failed := by
  unfold isEligible at h
  simp only [Bool.and_eq_true, decide_eq_true_eq] at h
  exact h.1.1

/-- A row selected by the stuck-job query has status processing. -/
theorem stuck_status {now : Nat} {j : Job} (h : isStuck now j = true) :
    j.status = JobStatus.processing := by
  unfold isStuck at h
  simp only [Bool.and_eq_true, decide_eq_true_eq] at h
  exact h.1

/-- When the conditional guard holds, the lock update produces the locked
row. -/
theorem lockUpdate_fst {now : Nat} {w : String} {j : Job}
    (h : j.status = JobStatus.pending ∨ j.status = JobStatus.failed) :
    (lockUpdate now w j).1 =
      { j with status := JobStatus.processing,
               locked_at := some now, locked_by := some w } := by
  unfold lockUpdate
  rw [if_pos h]

/-- A freshly inserted row satisfies the core invariant. -/
theorem coreInv_init (id key q : String) (now : Nat) :
    CoreInv (initialJob id key q now) := by
  unfold CoreInv initialJob
  refine ⟨fun _ => ?_, fun h => ?_, ?_, fun h => ?_, ?_, ?_⟩ <;> simp_all

/-- Every operation of the core preserves the invariant. -/
theorem coreInv_step {j j' : Job} (hinv : CoreInv j) (hst : Step j j') :
    CoreInv j' := by
  obtain ⟨h1, h2, h3, h4, h5, h6⟩ := hinv
  cases hst with
  | claim now w j helig =>
    have hs := eligible_status helig
    rw [lockUpdate_fst hs]
    have hrc : j.retry_count ≤ j.max_retries := by
      rcases hs with hp | hf
      · exact h1 (Or.inl hp)
      · exact Nat.le_of_lt (h2 hf)
    refine ⟨fun _ => hrc, ?_, h3, ?_, ?_, ?_⟩ <;> simp
  | complete now res j hpr =>
    unfold completeJob
    refine ⟨?_, ?_, h3, ?_, ?_, ?_⟩ <;> simp
  | fail now msg j hpr =>
    have hrc : j.retry_count ≤ j.max_retries := h1 (Or.inr hpr)
    unfold failJob
    by_cases hge : j.max_retries ≤ j.retry_count + 1
    · rw [if_pos hge]
      refine ⟨?_, ?_, ?_, ?_, ?_, ?_⟩ <;> simp
      omega
    · rw [if_neg hge]
      refine ⟨?_, ?_, ?_, ?_, ?_, ?_⟩ <;> simp
      · omega
      · omega
  | reap now j hstk =>
    have hpr := stuck_status hstk
    have hrc : j.retry_count ≤ j.max_retries := h1 (Or.inr hpr)
    unfold reapJob
    by_cases hge : j.max_retries ≤ j.retry_count
    · rw [if_pos hge]
      refine ⟨?_, ?_, ?_, ?_, ?_, ?_⟩ <;> simp
      omega
    · rw [if_neg hge]
      refine ⟨?_, ?_, ?_, ?_, ?_, ?_⟩ <;> simp
      · omega
      · omega

/-- Every row reachable from a freshly inserted one satisfies the core
invariant. -/
theorem reachable_coreInv {id key q : String} {t : Nat} {j : Job}
    (h : Reachable (initialJob id key q t) j) : CoreInv j := by
  induction h with
  | refl => exact coreInv_init id key q t
  | step _ hst ih => exact coreInv_step ih hst

/-- The claimed trace job is reachable. -/
theorem b0_reachable : Reachable (initialJob "jb" "kb" "qb" 0) b0 :=
  Reachable.step Reachable.refl (Step.claim 0 "w" _ (by decide))

/-- The once-failed trace job is reachable. -/
theorem b1_reachable : Reachable (initialJob "jb" "kb" "qb" 0) b1 :=
  Reachable.step b0_reachable (Step.fail 0 "boom" _ (by decide))

/-- The reclaimed trace job is reachable. -/
theorem b2_reachable : Reachable (initialJob "jb" "kb" "qb" 0) b2 :=
  Reachable.step b1_reachable (Step.claim 20000 "w" _ (by decide))

/-- The twice-failed trace job is reachable. -/
theorem b3_reachable : Reachable (initialJob "jb" "kb" "qb" 0) b3 :=
  Reachable.step b2_reachable (Step.fail 20000 "boom" _ (by decide))

/-- The trace job claimed for its third attempt is reachable. -/
theorem b4_reachable : Reachable (initialJob "jb" "kb" "qb" 0) b4 :=
  Reachable.step b3_reachable (Step.claim 60000 "w" _ (by decide))

/-- The reaper-recovered row is reachable: claimed at 60000, stale at
700000 under the 600-second cutoff, recovered to pending with
retry_count = 3. -/
theorem reapedJob_reachable : Reachable (initialJob "jb" "kb" "qb" 0) reapedJob :=
  Reachable.step b4_reachable (Step.reap 700000 _ (by decide))

/-- The recovered row claimed again at 740000 is reachable: processing
with retry_count = max_retries. -/
theorem reclaimedJob_reachable : Reachable (initialJob "jb" "kb" "qb" 0) reclaimedJob :=
  Reachable.step reapedJob_reachable (Step.claim 740000 "w" _ (by decide))

/-- The row whose retry_count has overflowed max_retries is reachable. -/
theorem overflowJob_reachable : Reachable (initialJob "jb" "kb" "qb" 0) overflowJob :=
  Reachable.step reclaimedJob_reachable (Step.fail 740000 "boom" _ (by decide))

/-- C1: on a single eligible job, only the first of two racing conditional
lock updates matches a row — the second matches zero rows because the
status guard re-checked at update time no longer holds. At the store the
claim is exclusive. But a zero-row update comes back from the client
library with error = null, and the handler reports a lost claim only when
the error is non-null, so the losing worker does not report and instead
proceeds to process the job it failed to lock. -/
theorem claim_race_loser_not_reported :
    isEligible 0 raceJob = true ∧
    (lockUpdate 0 "w1" raceJob).2 = 1 ∧
    (lockUpdate 0 "w2" (lockUpdate 0 "w1" raceJob).1).2 = 0 ∧
    lockConflictReported updateErrorForZeroRows = false := by decide

/-- C2: observed backoff of a fresh job with max_retries = 3 under
successive failures. The first failure (retry_count becomes 1) schedules
next_retry_at 20 seconds out, not the 10 seconds the claim and the
comment over calculateNextRetryTime state, because the code passes the
already-incremented count to a delay of 10 s times 2 to that count; the
second failure schedules 40 seconds out, not 20; the third failure
dead-letters, leaving the stale next_retry_at of the second failure in
place rather than none. -/
theorem backoff_first_failures_delay :
    b1.status = JobStatus.failed ∧ b1.retry_count = 1 ∧
    b1.next_retry_at = some 20000 ∧ b1.next_retry_at ≠ some 10000 ∧
    b3.status = JobStatus.failed ∧ b3.retry_count = 2 ∧
    b3.next_retry_at = some 60000 ∧ b3.next_retry_at ≠ some 40000 ∧
    b5.status = JobStatus.dead_letter ∧ b5.retry_count = 3 ∧
    b5.next_retry_at = some 60000 := by decide

/-- C3: the stuck-job query of the process function compares locked_at
against a fixed 600-second cutoff and never reads the timeout_seconds
column, while the spec (and the repository README) make staleness a
per-job predicate. A processing job with timeout_seconds = 60 locked 300
seconds ago is stale per the spec but not selected by the code; a
processing job with timeout_seconds = 3600 locked 700 seconds ago is not
stale per the spec but is selected by the code. -/
theorem reaper_ignores_per_job_timeout :
    isStuckPerSpec 300000 shortTimeoutJob = true ∧
    isStuck 300000 shortTimeoutJob = false ∧
    isStuckPerSpec 700000 longTimeoutJob = false ∧
    isStuck 700000 longTimeoutJob = true := by decide

/-- C4 counterexample: a reachable row whose retry_count exceeds its
max_retries. A job that fails twice, is claimed a third time, times out
and is recovered by the reaper (which increments retry_count to 3 =
max_retries while resetting to pending), is claimed once more and fails,
ends dead-lettered with retry_count = 4 and max_retries = 3. -/
theorem retry_count_exceeds_max_cex :
    Reachable (initialJob "jb" "kb" "qb" 0) overflowJob ∧
    overflowJob.max_retries < overflowJob.retry_count :=
  ⟨overflowJob_reachable, by decide⟩

/-- C4 amended: along every reachable sequence of core operations,
retry_count never exceeds max_retries + 1, and a failure transition whose
incremented count reaches max_retries always produces dead_letter, never
failed. -/
theorem retry_count_bounded_plus_one (id key q : String) (t : Nat) (j : Job)
    (h : Reachable (initialJob id key q t) j) :
    j.retry_count ≤ j.max_retries + 1 ∧
    ∀ now msg, j.max_retries ≤ j.retry_count + 1 →
      (failJob now msg j).status = JobStatus.dead_letter := by
  refine ⟨(reachable_coreInv h).2.2.1, fun now msg hge => ?_⟩
  unfold failJob
  rw [if_pos hge]

/-- Witness for the C4 theorem at the reclaimed trace row: processing with
retry_count = 3 = max_retries, so its failure dead-letters. -/
theorem retry_count_bounded_plus_one_witness :
    reclaimedJob.retry_count ≤ reclaimedJob.max_retries + 1 ∧
    (failJob 740000 "boom" reclaimedJob).status = JobStatus.dead_letter := by
  have h := retry_count_bounded_plus_one "jb" "kb" "qb" 0 reclaimedJob reclaimedJob_reachable
  exact ⟨h.1, h.2 740000 "boom" (by decide)⟩

/-- C5 counterexample: a reachable row with status pending carrying an
error_message — the reaper writes the message "Job timed out, will retry"
while resetting the row to pending, so error_message is not confined to
the failed and dead_letter statuses. -/
theorem pending_with_error_message_cex :
    Reachable (initialJob "jb" "kb" "qb" 0) reapedJob ∧
    reapedJob.status = JobStatus.pending ∧
    reapedJob.error_message = some "Job timed out, will retry" :=
  ⟨reapedJob_reachable, by decide, by decide⟩

/-- C5 amended: on every reachable row, error_message is set whenever the
status is failed or dead_letter; the converse direction fails (the reaper
sets error_message on a pending row, and neither claiming nor completing
clears a previously recorded one). -/
theorem error_message_set_on_failure_states (id key q : String) (t : Nat) (j : Job)
    (h : Reachable (initialJob id key q t) j)
    (hs : j.status = JobStatus.failed ∨ j.status = JobStatus.dead_letter) :
    j.error_message.isSome = true :=
  (reachable_coreInv h).2.2.2.1 hs

/-- Witness for the C5 theorem at the once-failed trace row. -/
theorem error_message_set_on_failure_states_witness :
    b1.error_message.isSome = true :=
  error_message_set_on_failure_states "jb" "kb" "qb" 0 b1 b1_reachable (Or.inl (by decide))

/-- C6: on every reachable row, locked_at is set exactly when the status
is processing, locked_by is set exactly when the status is processing,
and hence the two lock fields are set or cleared together: the claim
update sets both together with the processing status, and every update
leaving processing (success, both failure branches, both reaper branches)
clears both. -/
theorem lock_fields_iff_processing (id key q : String) (t : Nat) (j : Job)
    (h : Reachable (initialJob id key q t) j) :
    (j.locked_at.isSome = true ↔ j.status = JobStatus.processing) ∧
    (j.locked_by.isSome = true ↔ j.status = JobStatus.processing) ∧
    (j.locked_at.isSome = true ↔ j.locked_by.isSome = true) := by
  obtain ⟨-, -, -, -, h5, h6⟩ := reachable_coreInv h
  exact ⟨h5, h6, h5.trans h6.symm⟩

/-- Witness for the C6 theorem at the claimed trace row, where both lock
fields are set and the status is processing. -/
theorem lock_fields_iff_processing_witness :
    (b0.locked_at.isSome = true ↔ b0.status = JobStatus.processing) ∧
    (b0.locked_by.isSome = true ↔ b0.status = JobStatus.processing) ∧
    (b0.locked_at.isSome = true ↔ b0.locked_by.isSome = true) :=
  lock_fields_iff_processing "jb" "kb" "qb" 0 b0 b0_reachable

/-- C7 counterexample: on a stale processing job whose retry_count has
reached max_retries, the reaper writes the error_message "Job timed out
after maximum retries", not the string "timed out after maximum retries"
the claim quotes. -/
theorem reaper_error_message_cex :
    isStuck 700000 exhaustedStuckJob = true ∧
    (reapJob 700000 exhaustedStuckJob).status = JobStatus.dead_letter ∧
    (reapJob 700000 exhaustedStuckJob).error_message =
      some "Job timed out after maximum retries" ∧
    (reapJob 700000 exhaustedStuckJob).error_message ≠
      some "timed out after maximum retries" := by decide

/-- C7 amended: for every job the stuck-job query selects, when
retry_count has reached max_retries the reaper dead-letters it with
error_message "Job timed out after maximum retries", clears both lock
fields and sets completed_at; otherwise it resets the row to pending,
increments retry_count, sets next_retry_at with the same
calculateNextRetryTime function the failure resolver uses (applied to the
pre-increment retry_count), clears both lock fields and sets
error_message "Job timed out, will retry". -/
theorem reaper_action_spec (now : Nat) (j : Job) (h : isStuck now j = true) :
    j.status = JobStatus.processing ∧
    (j.max_retries ≤ j.retry_count →
      reapJob now j =
        { j with status := JobStatus.dead_letter,
                 error_message := some "Job timed out after maximum retries",
                 locked_at := none, locked_by := none,
                 completed_at := some now }) ∧
    (j.retry_count < j.max_retries →
      reapJob now j =
        { j with status := JobStatus.pending,
                 error_message := some "Job timed out, will retry",
                 retry_count := j.retry_count + 1,
                 next_retry_at := some (calculateNextRetryTime now j.retry_count),
                 locked_at := none, locked_by := none }) := by
  refine ⟨stuck_status h, ?_, ?_⟩
  · intro hge
    unfold reapJob
    rw [if_pos hge]
  · intro hlt
    unfold reapJob
    rw [if_neg (Nat.not_le.mpr hlt)]

/-- Witness for the C7 theorem at a stale job with retry budget left. -/
theorem reaper_action_spec_witness :
    reapJob 700000 retryableStuckJob =
      { retryableStuckJob with
          status := JobStatus.pending,
          error_message := some "Job timed out, will retry",
          retry_count := 2,
          next_retry_at := some (calculateNextRetryTime 700000 1),
          locked_at := none, locked_by := none } :=
  (reaper_action_spec 700000 retryableStuckJob (by decide)).2.2 (by decide)

/-- C8 counterexample: submitting the query qq after the only job with its
idempotency key has completed does not insert a fresh pending row — the
dedup lookup (scoped to pending and processing) misses, the insert then
collides with the unconditional UNIQUE constraint on idempotency_key, and
the handler returns the insert failure; the table is unchanged. -/
theorem enqueue_after_terminal_cex :
    findActiveByKey terminalKeyedTable (mkIdempotencyKey none "qq") = none ∧
    enqueue terminalKeyedTable "qq" none "j-new" 10 =
      (EnqueueResult.insertFailed, terminalKeyedTable) := by decide

/-- C8 amended: when a job with the submission idempotency key exists with
status pending or processing, enqueue returns its id and current status
and inserts no row; when no row at all carries that key, enqueue inserts a
fresh job with status pending, retry_count 0, max_retries 3 and
timeout_seconds 600 and returns its id; when only terminal rows
(completed, failed or dead_letter) carry the key, the insert violates the
UNIQUE constraint on idempotency_key and enqueue returns the insert
failure instead of a fresh job. -/
theorem enqueue_dedup_spec (table : List Job) (q : String) (uid : Option String)
    (newId : String) (now : Nat) :
    (∀ j, findActiveByKey table (mkIdempotencyKey uid q) = some j →
      enqueue table q uid newId now = (EnqueueResult.existing j.id j.status, table)) ∧
    (findActiveByKey table (mkIdempotencyKey uid q) = none →
      table.any (fun j => j.idempotency_key == mkIdempotencyKey uid q) = false →
      enqueue table q uid newId now =
        (EnqueueResult.created newId,
         table ++ [initialJob newId (mkIdempotencyKey uid q) q now])) ∧
    (findActiveByKey table (mkIdempotencyKey uid q) = none →
      table.any (fun j => j.idempotency_key == mkIdempotencyKey uid q) = true →
      enqueue table q uid newId now = (EnqueueResult.insertFailed, table)) := by
  refine ⟨fun j hj => ?_, fun hnone hfree => ?_, fun hnone hdup => ?_⟩
  · simp only [enqueue, hj]
  · simp only [enqueue, hnone, hfree, Bool.false_eq_true, if_false]
  · simp only [enqueue, hnone, hdup, if_true]

/-- Witness for the C8 theorem: the active-match branch on a table holding
one pending job under the key, and the fresh-insert branch on the empty
table. -/
theorem enqueue_dedup_spec_witness :
    enqueue activeKeyedTable "qa" none "j-n" 3 =
      (EnqueueResult.existing "j-act" JobStatus.pending, activeKeyedTable) ∧
    enqueue [] "qa" none "j-n" 3 =
      (EnqueueResult.created "j-n",
       [initialJob "j-n" (mkIdempotencyKey none "qa") "qa" 3]) := by
  constructor
  · exact (enqueue_dedup_spec activeKeyedTable "qa" none "j-n" 3).1
      (initialJob "j-act" "anonymous:qa" "qa" 0) (by decide)
  · exact (enqueue_dedup_spec [] "qa" none "j-n" 3).2.1 (by decide) (by decide)

/-- C9: the status function is a pure projection. For a non-empty job id,
a missing row yields the not-found response; a present row yields its
projected view, whose error part (error_message, retry_count, max_retries)
is present exactly when the status is failed or dead_letter, whose retry
part (retry_count, max_retries) is present exactly when the status is
pending with retry_count positive, and whose result part is present
exactly when the status is completed, for any row on which a completed
status comes with a stored result (which every row the core produces
does). The handler is a pure function of the table, so no job state is
modified. -/
theorem status_reader_projection (table : List Job) (jid : String)
    (hne : jid ≠ "") :
    (findById table jid = none →
      statusHandler (StatusRequest.get (some jid)) table = StatusResult.notFound) ∧
    (∀ j, findById table jid = some j →
      statusHandler (StatusRequest.get (some jid)) table =
        StatusResult.ok (statusProjection j) ∧
      ((statusProjection j).errorPart.isSome = true ↔
        (j.status = JobStatus.failed ∨ j.status = JobStatus.dead_letter)) ∧
      ((statusProjection j).retryPart.isSome = true ↔
        (j.status = JobStatus.pending ∧ 0 < j.retry_count)) ∧
      ((j.status = JobStatus.completed → j.result.isSome = true) →
        ((statusProjection j).resultPart.isSome = true ↔
          j.status = JobStatus.completed))) := by
  constructor
  · intro hnone
    simp only [statusHandler, extractJobId, if_neg hne, hnone]
  · intro j hj
    refine ⟨?_, ?_, ?_, ?_⟩
    · simp only [statusHandler, extractJobId, if_neg hne, hj]
    · unfold statusProjection
      by_cases hs : j.status = JobStatus.failed ∨ j.status = JobStatus.dead_letter
      · rw [if_pos hs]
        simp [hs]
      · rw [if_neg hs]
        simp [hs]
    · unfold statusProjection
      by_cases hs : j.status = JobStatus.pending ∧ 0 < j.retry_count
      · rw [if_pos hs]
        simp [hs]
      · rw [if_neg hs]
        simp [hs]
    · intro hcomp
      unfold statusProjection
      cases hr : j.result with
      | none =>
        simp only
        constructor
        · intro habs
          exact absurd habs (by simp)
        · intro hc
          exact absurd (hcomp hc) (by simp [hr])
      | some r =>
        simp only
        by_cases hc : j.status = JobStatus.completed
        · rw [if_pos hc]
          simp [hc]
        · rw [if_neg hc]
          simp [hc]

/-- Witness for the C9 theorem: the not-found branch and the failed-row
projection on a one-row table, and the completed-row result presence on
another. -/
theorem status_reader_projection_witness :
    statusHandler (StatusRequest.get (some "zzz")) [failedViewJob] =
      StatusResult.notFound ∧
    statusHandler (StatusRequest.get (some "j-f")) [failedViewJob] =
      StatusResult.ok (statusProjection failedViewJob) ∧
    (statusProjection failedViewJob).errorPart.isSome = true ∧
    (statusProjection completedViewJob).resultPart.isSome = true := by
  refine ⟨?_, ?_, ?_, ?_⟩
  · exact (status_reader_projection [failedViewJob] "zzz" (by decide)).1 (by decide)
  · exact ((status_reader_projection [failedViewJob] "j-f" (by decide)).2
      failedViewJob (by decide)).1
  · exact (((status_reader_projection [failedViewJob] "j-f" (by decide)).2
      failedViewJob (by decide)).2.1).mpr (Or.inl (by decide))
  · exact ((((status_reader_projection [completedViewJob] "j-c" (by decide)).2
      completedViewJob (by decide)).2.2.2) (fun _ => by decide)).mpr (by decide)

/-- C10: a status request carrying no job id — a GET without the job_id
query parameter or a POST whose body lacks job_id — yields the 400
response "job_id is required" for every table (so no row is ever
consulted), and that response differs from the not-found response an
unknown id yields. -/
theorem status_missing_job_id (table : List Job) :
    statusHandler (StatusRequest.get none) table =
      StatusResult.badRequest "job_id is required" ∧
    statusHandler (StatusRequest.post none) table =
      StatusResult.badRequest "job_id is required" ∧
    ∀ msg, StatusResult.badRequest msg ≠ StatusResult.notFound := by
  refine ⟨rfl, rfl, fun msg h => ?_⟩
  cases h

end Soca
